/-
Verification of the x402 token-scanner bot (src/bot.py) against its
natural-language specification.

The pipeline under verification: source adapters (x402 Mesh API scanner,
DexScreener scanner) → normalizer/filter → security evaluator
(`security_scan` with the honeypot and liquidity checks) → dedup and
rate limiter inside `auto_scan_loop` → notifier.

Shallow embedding conventions:
  * Python floats carrying money/time quantities are modelled as `ℚ`.
  * A fallible outbound HTTP call is modelled by `FetchResult α`:
    `exn` (exception/timeout), `badStatus` (non-200), or `ok` with the
    parsed payload.
  * Python `str.startswith` works on code points, which is exactly
    `List.isPrefixOf` on `String.data`; we embed it as `pyStartswith`.
  * The orchestrator's per-token dedup/rate-limit/gate logic
    (bot.py lines 511-539) is the pure step function `processToken`;
    success of the Telegram send is an input (`sendOk`) because the
    code catches send errors internally.
-/
import Mathlib

namespace X402Bot

/-- Python `str.startswith`: code-point-level prefix test.
Python strings are sequences of code points, and `String.data` is the
code-point list of a Lean string, so this is an exact model. -/
def pyStartswith (s pre : String) : Bool :=
  pre.data.isPrefixOf s.data

/-- Outcome of one outbound HTTP call made by a check or scanner:
an exception (incl. timeout), a non-200 status, or a parsed payload. -/
inductive FetchResult (α : Type) where
  | exn : FetchResult α
  | badStatus : FetchResult α
  | ok (data : α) : FetchResult α

/-- Fields of the Honeypot.is response used by `check_honeypot`
(bot.py lines 57-59). -/
structure HoneypotData where
  isHoneypot : Bool
  buyTax : ℚ
  sellTax : ℚ

/-- One DexScreener pair object, with the fields read by the code
(bot.py lines 80-121 and 326-330).  Defaults mirror the Python
`.get(..., default)` fallbacks. -/
structure Pair where
  chainId : String := ""
  liqUsd : ℚ := 0
  priceUsd : ℚ := 0
  marketCap : ℚ := 0
  volH24 : ℚ := 0
  priceChangeH24 : ℚ := 0
  pairCreatedAt : ℚ := 0
  url : String := ""
  baseTokenName : String := "Unknown"
  baseTokenSymbol : String := "???"
  baseTokenAddress : String := ""
  dexId : String := "Unknown"
deriving DecidableEq

/-- `check_honeypot` (bot.py lines 46-69): tri-state result plus a
human-readable message.  `none` = unknown (API error or exception). -/
def check_honeypot : FetchResult HoneypotData → Option Bool × String
  | FetchResult.exn => (none, "⚠️ Timeout")
  | FetchResult.badStatus => (none, "⚠️ API error")
  | FetchResult.ok d =>
      if d.isHoneypot then (some false, "🚨 HONEYPOT!")
      else if 10 < d.buyTax ∨ 10 < d.sellTax then
        (some false, "⚠️ Tax: " ++ (toString d.buyTax ++ ("/" ++ (toString d.sellTax ++ "%"))))
      else
        (some true, "✅ Tax: " ++ (toString d.buyTax ++ ("/" ++ (toString d.sellTax ++ "%"))))

/-- Python `max(pairs, key=liquidity.usd)`: first maximal element
(replace the running best only on a strictly larger key). -/
def mainPair : List Pair → Option Pair
  | [] => none
  | p :: ps => some (ps.foldl (fun best q => if best.liqUsd < q.liqUsd then q else best) p)

/-- `check_liquidity_dex` (bot.py lines 71-93): tri-state result,
message, and the main pair (when one was found). -/
def check_liquidity_dex : FetchResult (List Pair) → Option Bool × String × Option Pair
  | FetchResult.exn => (none, "⚠️ Failed", none)
  | FetchResult.badStatus => (none, "⚠️ No data", none)
  | FetchResult.ok pairs =>
      match mainPair (pairs.filter (fun p => p.chainId == "base")) with
      | none => (some false, "❌ No Base pool", none)
      | some mp =>
          if mp.liqUsd < 5000 then
            (some false, "⚠️ Low liq: $" ++ toString mp.liqUsd, some mp)
          else
            (some true, "✅ Liq: $" ++ toString mp.liqUsd, some mp)

/-- The token-info dictionary built inside `security_scan`
(bot.py lines 146-153). -/
structure TokenInfoS where
  price : ℚ
  mcap : ℚ
  liquidity : ℚ
  volume24h : ℚ
  dexUrl : String
deriving DecidableEq

def mkTokenInfo (p : Pair) : TokenInfoS :=
  { price := p.priceUsd, mcap := p.marketCap, liquidity := p.liqUsd,
    volume24h := p.volH24, dexUrl := p.url }

/-- The verdict dictionary returned by `security_scan`
(bot.py lines 168-176). -/
structure SecurityVerdict where
  passed : ℕ
  total : ℕ
  score : ℚ
  level : String
  recommendation : String
  checks : List String
  tokenInfo : Option TokenInfoS
deriving DecidableEq

/-- Risk tier from the score (bot.py lines 161-166). -/
def riskLevel (score : ℚ) : String × String :=
  if 75 ≤ score then ("🟢 LOW RISK", "✅ SAFE")
  else if 50 ≤ score then ("🟡 MEDIUM", "⚠️ CAUTION")
  else ("🔴 HIGH RISK", "🚨 AVOID")

/-- Combining step of `security_scan` (bot.py lines 158-176): `total`
counts the check messages that do NOT start with "❌", the score is
`passed/total*100` when `total > 0` and `0` otherwise. -/
def mkVerdict (passed : ℕ) (checks : List String) (ti : Option TokenInfoS) : SecurityVerdict :=
  let total := (checks.filter (fun c => !(pyStartswith c "❌"))).length
  let score : ℚ := if 0 < total then (passed : ℚ) / (total : ℚ) * 100 else 0
  { passed := passed, total := total, score := score,
    level := (riskLevel score).1, recommendation := (riskLevel score).2,
    checks := checks, tokenInfo := ti }

/-- Where an exception escapes the `try` body of `security_scan`
(bot.py lines 133-156): nowhere (`noExn`); at session creation, before
either check ran (`beforeChecks`); or in the token-info float parsing,
after both checks ran (`afterChecks`).  The two check calls catch their
own exceptions internally, so these are the only escape points. -/
inductive ScanExn where
  | noExn : ScanExn
  | beforeChecks : ScanExn
  | afterChecks : ScanExn

/-- `security_scan` (bot.py lines 127-176).  `passed` is incremented
exactly when a check's tri-state result is truthy, i.e. `some true`. -/
def security_scan (hp : FetchResult HoneypotData) (liq : FetchResult (List Pair))
    (e : ScanExn) : SecurityVerdict :=
  match e with
  | ScanExn.beforeChecks => mkVerdict 0 ["❌ Scan error"] none
  | ScanExn.noExn =>
      let hpr := check_honeypot hp
      let liqr := check_liquidity_dex liq
      let passed := (if hpr.1 = some true then 1 else 0) +
        (if liqr.1 = some true then 1 else 0)
      mkVerdict passed [hpr.2, liqr.2.1] (liqr.2.2.map mkTokenInfo)
  | ScanExn.afterChecks =>
      let hpr := check_honeypot hp
      let liqr := check_liquidity_dex liq
      let passed := (if hpr.1 = some true then 1 else 0) +
        (if liqr.1 = some true then 1 else 0)
      mkVerdict passed [hpr.2, liqr.2.1, "❌ Scan error"] none

/-! ### DexScreener scanner (bot.py lines 299-389) -/

/-- "Potential multiplier" label from market cap (bot.py lines 262-269
and 348-355; identical in both scanners). -/
def potentialOf (mcap : ℚ) : String :=
  if mcap < 50000 then "1000-10000x 🚀🚀🚀"
  else if mcap < 100000 then "100-1000x 🚀🚀"
  else if mcap < 500000 then "10-100x 🚀"
  else "5-10x"

/-- The opportunity dictionary built by `scan_dexscreener_trending`
(bot.py lines 361-376). -/
structure DexOpp where
  name : String
  symbol : String
  contract : String
  otype : String
  price : ℚ
  mcap : ℚ
  liq : ℚ
  volume24h : ℚ
  priceChange24h : ℚ
  dexUrl : String
  potential : String
  age : String
  isNew : Bool
  source : String
deriving DecidableEq

/-- Admission filter of `scan_dexscreener_trending`
(bot.py lines 332-339): `(is_new or is_microcap) and has_liquidity and
(has_volume or is_pumping)`.  `now` is in milliseconds; `day_ago` is
`now - 24*60*60*1000`. -/
def dexKeepP (now : ℚ) (p : Pair) : Prop :=
  (p.pairCreatedAt > now - 86400000 ∨ (1000 < p.marketCap ∧ p.marketCap < 500000))
    ∧ p.liqUsd > 10000
    ∧ (p.volH24 > 5000 ∨ p.priceChangeH24 > 30)

instance (now : ℚ) (p : Pair) : Decidable (dexKeepP now p) := by
  unfold dexKeepP; infer_instance

/-- Opportunity construction (bot.py lines 346-376). -/
def mkDexOpp (now : ℚ) (p : Pair) : DexOpp :=
  let ageHours := (now - p.pairCreatedAt) / (1000 * 60 * 60)
  { name := p.baseTokenName, symbol := p.baseTokenSymbol,
    contract := p.baseTokenAddress, otype := "dex_trending",
    price := p.priceUsd, mcap := p.marketCap, liq := p.liqUsd,
    volume24h := p.volH24, priceChange24h := p.priceChangeH24,
    dexUrl := p.url, potential := potentialOf p.marketCap,
    age := if ageHours < 24 then toString ageHours ++ "h"
      else toString (ageHours / 24) ++ "d",
    isNew := decide (p.pairCreatedAt > now - 86400000),
    source := "DexScreener" }

/-- `scan_dexscreener_trending` (bot.py lines 299-389): scan the top 30
pairs, keep those passing the admission filter that have a non-empty
base-token address, sort ascending by market cap (Python's `list.sort`
is stable; `List.insertionSort` with `≤` on the key is the same stable
sort), and return the first 10. -/
def scan_dexscreener_trending (now : ℚ) (resp : FetchResult (List Pair)) : List DexOpp :=
  match resp with
  | FetchResult.exn => []
  | FetchResult.badStatus => []
  | FetchResult.ok pairs =>
      let kept := (pairs.take 30).filter
        (fun p => decide (dexKeepP now p) && !(p.baseTokenAddress == ""))
      let opps := kept.map (mkDexOpp now)
      (List.insertionSort (fun a b => a.mcap ≤ b.mcap) opps).take 10

/-! ### x402 Mesh scanner (bot.py lines 179-296) -/

/-- One raw item of the x402 trending response after shape handling
(bot.py lines 214-239): either a bare string, or a dict from which the
address is read as `get("address") or get("contract") or
get("token_address")`. -/
inductive RawX402Token where
  | str (s : String) : RawX402Token
  | dict (address contract tokenAddress : Option String) : RawX402Token

/-- Python `a or b` on optional strings: `a` unless it is falsy
(absent or empty), else `b`. -/
def pyOr (a b : Option String) : Option String :=
  match a with
  | none => b
  | some s => if s = "" then b else some s

/-- Contract-address extraction (bot.py lines 235-239). -/
def extractContract : RawX402Token → Option String
  | RawX402Token.str s => some s
  | RawX402Token.dict a c t => pyOr (pyOr a c) t

/-- Result of `get_token_info_dex` (bot.py lines 95-125), an outbound
DexScreener lookup; modelled as an oracle `String → Option DexInfo`
passed to the scanner. -/
structure DexInfo where
  name : String := "Unknown"
  symbol : String := "???"
  price : ℚ := 0
  mcap : ℚ := 0
  liquidity : ℚ := 0
  volume24h : ℚ := 0
  priceChange24h : ℚ := 0
  createdAt : ℚ := 0
  dexUrl : String := ""
  dexName : String := "Unknown"
deriving DecidableEq

/-- The opportunity dictionary built by `scan_x402_trending`
(bot.py lines 271-284). -/
structure X402Opp where
  name : String
  symbol : String
  contract : String
  otype : String
  price : ℚ
  mcap : ℚ
  liq : ℚ
  volume24h : ℚ
  priceChange24h : ℚ
  dexUrl : String
  potential : String
  source : String
deriving DecidableEq

/-- Per-token processing of `scan_x402_trending` (bot.py lines 232-286):
drop items without a usable address (`not contract or not
contract.startswith("0x")`), look the address up on DexScreener, and
keep microcap (1000 < mcap < 1000000) tokens with liquidity > 5000. -/
def processX402Token (infoOf : String → Option DexInfo) (tok : RawX402Token) :
    Option X402Opp :=
  match extractContract tok with
  | none => none
  | some contract =>
      if contract = "" ∨ ¬ pyStartswith contract "0x" then none
      else
        match infoOf contract with
        | none => none
        | some info =>
            if 1000 < info.mcap ∧ info.mcap < 1000000 ∧ info.liquidity > 5000 then
              some { name := info.name, symbol := info.symbol, contract := contract,
                     otype := "x402_trending", price := info.price, mcap := info.mcap,
                     liq := info.liquidity, volume24h := info.volume24h,
                     priceChange24h := info.priceChange24h, dexUrl := info.dexUrl,
                     potential := potentialOf info.mcap, source := "x402 Trending" }
            else none

/-- `scan_x402_trending` from the parsed token list onward
(bot.py lines 232-292): at most the first 10 items are processed. -/
def scan_x402_trending (tokens : List RawX402Token)
    (infoOf : String → Option DexInfo) : List X402Opp :=
  (tokens.take 10).filterMap (processX402Token infoOf)

/-! ### Orchestrator: dedup, rate limiting, security gate
(bot.py lines 487-546) -/

/-- The fields of an opportunity read by the scan loop
(bot.py lines 511-536): its kind tag (`type`) and contract address. -/
structure Token where
  ttype : String
  contract : String
deriving DecidableEq

/-- `token_id = f"{token['type']}_{token['contract']}"` (line 512). -/
def tokenId (t : Token) : String := t.ttype ++ "_" ++ t.contract

/-- `last_scan_time.get(token_id, 0)` on an association-list model of
the Python dict (line 515). -/
def getLast (m : List (String × ℚ)) (k : String) : ℚ :=
  match m.find? (fun kv => kv.1 == k) with
  | some kv => kv.2
  | none => 0

/-- `last_scan_time[token_id] = now` (line 536): dict update. -/
def dictSet (m : List (String × ℚ)) (k : String) (v : ℚ) : List (String × ℚ) :=
  (k, v) :: m.filter (fun kv => !(kv.1 == k))

/-- Mutable state touched by the per-token loop body: the dedup set
`scanned_tokens`, the rate-limit dict `last_scan_time`, and the
lifetime counter `scan_stats["alerts_sent"]` (incremented only when the
Telegram send succeeds, bot.py line 459). -/
structure ScanState where
  scannedTokens : Finset String
  lastScanTime : List (String × ℚ)
  alertsSent : ℕ
deriving DecidableEq

/-- One iteration of the per-token loop of `auto_scan_loop`
(bot.py lines 511-539) for a token whose security scan returned
`score`.  `sendOk` says whether the Telegram send inside
`send_opportunity_alert` succeeded; a failed send is caught and logged
there (lines 451-461), so it only affects the `alerts_sent` counter.
Returns the new state and whether the candidate was admitted (i.e. the
alert path ran). -/
def processToken (st : ScanState) (t : Token) (now score : ℚ) (sendOk : Bool) :
    ScanState × Bool :=
  let tid := tokenId t
  let lastAlert := getLast st.lastScanTime tid
  if now - lastAlert < 3600 then (st, false)
  else if tid ∉ st.scannedTokens ∨ now - lastAlert > 3600 then
    if 50 ≤ score then
      ({ scannedTokens := insert tid st.scannedTokens,
         lastScanTime := dictSet st.lastScanTime tid now,
         alertsSent := st.alertsSent + (if sendOk then 1 else 0) }, true)
    else (st, false)
  else (st, false)

/-- End-of-cycle trim of `scanned_tokens` (bot.py lines 542-543):
`scanned_tokens = set(list(scanned_tokens)[-500:])` when the set holds
more than 1000 entries.  The input list is `list(scanned_tokens)`, the
set's iteration list. -/
def cleanup_scanned (tokens : List String) : List String :=
  if 1000 < tokens.length then tokens.drop (tokens.length - 500) else tokens

/-- End-of-cycle purge of `last_scan_time` (bot.py lines 545-546):
keep entries newer than `now - 86400`. -/
def cleanup_last_scan (now : ℚ) (m : List (String × ℚ)) : List (String × ℚ) :=
  m.filter (fun kv => decide (kv.2 > now - 86400))

/-! ### The set of security checks, for claims about which checks run -/

/-- Kinds of security check named by the specification.  `security_scan`
(bot.py lines 127-176) runs only the first two; there is no
contract-verification or holder-concentration code anywhere in bot.py
(`BASESCAN_API_KEY` is read at line 26 and never used). -/
inductive CheckKind where
  | honeypot : CheckKind
  | liquidity : CheckKind
  | contractVerification : CheckKind
  | holderConcentration : CheckKind
deriving DecidableEq

/-- The checks `security_scan` actually runs, in order
(bot.py lines 135-143). -/
def securityScanChecks : List CheckKind :=
  [CheckKind.honeypot, CheckKind.liquidity]

/-! ### Concrete data used by scenario theorems and witnesses -/

/-- A benign Honeypot.is response: not a honeypot, zero taxes. -/
def hpGood : HoneypotData := ⟨false, 0, 0⟩

/-- The C1 scenario's liquidity data: one Base pool with 3000 USD
liquidity, below the 5000 floor. -/
def pairC1 : Pair := { chainId := "base", liqUsd := 3000 }

/-- A Base pool with 20000 USD liquidity, above the floor. -/
def pairGood : Pair := { chainId := "base", liqUsd := 20000 }

/-- An x402-kind candidate identity. -/
def tk1 : Token := ⟨"x402_trending", "0xabc"⟩

/-- A dex-kind candidate identity with the same contract address. -/
def tk2 : Token := ⟨"dex_trending", "0xabc"⟩

/-- Fresh orchestrator state: nothing notified yet. -/
def st0 : ScanState := ⟨∅, [], 0⟩

/-- State in which `tk1` was notified at time 0. -/
def st1 : ScanState := ⟨{tokenId tk1}, [(tokenId tk1, 0)], 0⟩

/-- The C5 scenario pair: marketCap 40000, liquidity 12000,
volume24h 6000, priceChange24h 5, created "now" (t = 100000000 ms). -/
def pairC5 : Pair :=
  { marketCap := 40000, liqUsd := 12000, volH24 := 6000, priceChangeH24 := 5,
    pairCreatedAt := 100000000, baseTokenAddress := "0x1" }

/-- A pair created "now" with liquidity above the floor but with zero
volume and zero price change. -/
def pairNoVol : Pair :=
  { liqUsd := 12000, pairCreatedAt := 100000000, baseTokenAddress := "0x2" }

/-- An older pair (created at t = 0) with the smaller market cap. -/
def pairOld : Pair :=
  { marketCap := 2000, liqUsd := 20000, volH24 := 6000, pairCreatedAt := 0,
    baseTokenAddress := "0xA" }

/-- A newer pair (created at t = 1000) with the larger market cap. -/
def pairNewer : Pair :=
  { marketCap := 3000, liqUsd := 20000, volH24 := 6000, pairCreatedAt := 1000,
    baseTokenAddress := "0xB" }

/-- A pair passing every admission filter whose base-token address is
not of the 0x-prefixed 40-hex-digit form. -/
def pairBadAddr : Pair :=
  { marketCap := 2000, liqUsd := 20000, volH24 := 6000, pairCreatedAt := 0,
    baseTokenAddress := "zzz" }

/-! ### Helper lemmas: check messages and the attempted count -/

/-- Appending anything to a string that does not start with "❌" (and is
non-empty) yields a string that does not start with "❌". -/
lemma pyStartswith_x_append (a s : String) (ha : a.data ≠ [])
    (h : pyStartswith a "❌" = false) : pyStartswith (a ++ s) "❌" = false := by
  unfold pyStartswith at h ⊢
  rw [String.data_append]
  have hx : ("❌").data = ['❌'] := rfl
  rw [hx] at h ⊢
  cases hd : a.data with
  | nil => exact absurd hd ha
  | cons c l =>
      rw [hd] at h
      simp only [List.cons_append, List.isPrefixOf_cons₂, List.isPrefixOf_nil_left,
        Bool.and_true] at h ⊢
      exact h

/-- No message produced by `check_honeypot` starts with "❌" — in
particular the timeout and API-error messages are "⚠️"-prefixed, so an
errored/timed-out honeypot check still counts in `total`. -/
lemma hp_msg_not_err (hp : FetchResult HoneypotData) :
    pyStartswith (check_honeypot hp).2 "❌" = false := by
  cases hp with
  | exn => decide
  | badStatus => decide
  | ok d =>
      simp only [check_honeypot]
      by_cases h1 : d.isHoneypot
      · simp only [h1, if_true]; decide
      · by_cases h2 : 10 < d.buyTax ∨ 10 < d.sellTax
        · simp only [h1, if_false, h2, if_true]
          exact pyStartswith_x_append _ _ (by decide) (by decide)
        · simp only [h1, if_false, h2, if_true]
          exact pyStartswith_x_append _ _ (by decide) (by decide)

/-- A passing liquidity check's message starts with "✅", not "❌". -/
lemma liq_pass_msg (liq : FetchResult (List Pair))
    (h : (check_liquidity_dex liq).1 = some true) :
    pyStartswith (check_liquidity_dex liq).2.1 "❌" = false := by
  cases liq with
  | exn => simp [check_liquidity_dex] at h
  | badStatus => simp [check_liquidity_dex] at h
  | ok pairs =>
      simp only [check_liquidity_dex] at h ⊢
      cases hm : mainPair (pairs.filter (fun p => p.chainId == "base")) with
      | none => simp [hm] at h
      | some mp =>
          simp only [hm] at h ⊢
          by_cases hl : mp.liqUsd < 5000
          · rw [if_pos hl] at h; simp at h
          · rw [if_neg hl]
            exact pyStartswith_x_append _ _ (by decide) (by decide)

lemma verdict_total (p : ℕ) (cs : List String) (ti : Option TokenInfoS) :
    (mkVerdict p cs ti).total = (cs.filter (fun c => !(pyStartswith c "❌"))).length := rfl

lemma verdict_passed (p : ℕ) (cs : List String) (ti : Option TokenInfoS) :
    (mkVerdict p cs ti).passed = p := rfl

lemma security_scan_noExn (hp : FetchResult HoneypotData) (liq : FetchResult (List Pair)) :
    security_scan hp liq ScanExn.noExn =
      mkVerdict ((if (check_honeypot hp).1 = some true then 1 else 0) +
          (if (check_liquidity_dex liq).1 = some true then 1 else 0))
        [(check_honeypot hp).2, (check_liquidity_dex liq).2.1]
        ((check_liquidity_dex liq).2.2.map mkTokenInfo) := rfl

lemma security_scan_afterChecks (hp : FetchResult HoneypotData) (liq : FetchResult (List Pair)) :
    security_scan hp liq ScanExn.afterChecks =
      mkVerdict ((if (check_honeypot hp).1 = some true then 1 else 0) +
          (if (check_liquidity_dex liq).1 = some true then 1 else 0))
        [(check_honeypot hp).2, (check_liquidity_dex liq).2.1, "❌ Scan error"] none := rfl

lemma security_scan_beforeChecks (hp : FetchResult HoneypotData) (liq : FetchResult (List Pair)) :
    security_scan hp liq ScanExn.beforeChecks = mkVerdict 0 ["❌ Scan error"] none := rfl

/-- The score field is the formula of bot.py line 159, stated over the
verdict's own `passed` and `total` fields. -/
lemma security_scan_score_eq (hp : FetchResult HoneypotData) (liq : FetchResult (List Pair))
    (e : ScanExn) :
    (security_scan hp liq e).score =
      if 0 < (security_scan hp liq e).total then
        ((security_scan hp liq e).passed : ℚ) / ((security_scan hp liq e).total : ℚ) * 100
      else 0 := by
  cases e <;> rfl

lemma security_scan_level_eq (hp : FetchResult HoneypotData) (liq : FetchResult (List Pair))
    (e : ScanExn) :
    (security_scan hp liq e).level = (riskLevel (security_scan hp liq e).score).1 := by
  cases e <;> rfl

/-- Every check counted in `passed` is also counted in `total`. -/
lemma passed_le_total (hp : FetchResult HoneypotData) (liq : FetchResult (List Pair))
    (e : ScanExn) : (security_scan hp liq e).passed ≤ (security_scan hp liq e).total := by
  have h1 : (!(pyStartswith (check_honeypot hp).2 "❌")) = true := by
    rw [hp_msg_not_err]; rfl
  have hx : (!(pyStartswith "❌ Scan error" "❌")) = false := by decide
  cases e with
  | beforeChecks =>
      rw [security_scan_beforeChecks, verdict_passed, verdict_total]
      exact Nat.zero_le _
  | noExn =>
      rw [security_scan_noExn, verdict_passed, verdict_total]
      have hi : (if (check_honeypot hp).1 = some true then (1:ℕ) else 0) ≤ 1 := by
        split <;> norm_num
      by_cases hliq : (check_liquidity_dex liq).1 = some true
      · have h2 : (!(pyStartswith (check_liquidity_dex liq).2.1 "❌")) = true := by
          rw [liq_pass_msg liq hliq]; rfl
        simp only [List.filter_cons, h1, h2, if_true, List.length_cons, hliq,
          List.filter_nil, List.length_nil]
        omega
      · simp only [hliq, if_false, add_zero, List.filter_cons, h1, if_true,
          List.length_cons]
        omega
  | afterChecks =>
      rw [security_scan_afterChecks, verdict_passed, verdict_total]
      have hi : (if (check_honeypot hp).1 = some true then (1:ℕ) else 0) ≤ 1 := by
        split <;> norm_num
      by_cases hliq : (check_liquidity_dex liq).1 = some true
      · have h2 : (!(pyStartswith (check_liquidity_dex liq).2.1 "❌")) = true := by
          rw [liq_pass_msg liq hliq]; rfl
        simp only [List.filter_cons, h1, h2, hx, if_true, if_false, List.length_cons,
          List.filter_nil, List.length_nil, hliq]
        omega
      · simp only [hliq, if_false, add_zero, List.filter_cons, h1, if_true,
          List.length_cons]
        omega

/-- Arithmetic facts about the score formula. -/
lemma score_arith (p t : ℕ) (hpt : p ≤ t) :
    (0:ℚ) ≤ (if 0 < t then (p:ℚ)/(t:ℚ)*100 else 0)
    ∧ (if 0 < t then (p:ℚ)/(t:ℚ)*100 else 0) ≤ 100
    ∧ (0 < t → ((if 0 < t then (p:ℚ)/(t:ℚ)*100 else 0) = 100 ↔ p = t)) := by
  by_cases ht : 0 < t
  · rw [if_pos ht]
    have ht' : (0:ℚ) < t := by exact_mod_cast ht
    have hle : (p:ℚ) ≤ (t:ℚ) := by exact_mod_cast hpt
    refine ⟨by positivity, ?_, ?_⟩
    · have hdiv : (p:ℚ)/(t:ℚ) ≤ 1 := by rw [div_le_one ht']; exact hle
      nlinarith
    · intro _
      rw [div_mul_eq_mul_div, div_eq_iff (ne_of_gt ht')]
      constructor
      · intro h
        have : (p:ℚ) = t := by linarith
        exact_mod_cast this
      · intro h
        subst h
        ring
  · rw [if_neg ht]
    refine ⟨le_refl 0, by norm_num, fun h => absurd h ht⟩

/-! ### Claim C1 -/

/-- C1, counterexample.  The claim says a check that errors or times out
counts in neither `passed` nor `total` (attempted), so the scenario
honeypot=unknown(timeout), liquidity=fail(3000 USD, floor 5000) should
give attempted = 1.  In the code, only messages starting with "❌" are
excluded from `total`, and the timeout message "⚠️ Timeout" and the
low-liquidity failure message "⚠️ Low liq: ..." both count: at exactly
the claim's scenario input the verdict has total = 2, not 1. -/
theorem c1_counterexample :
    (check_honeypot FetchResult.exn).1 = none
    ∧ (check_liquidity_dex (FetchResult.ok [pairC1])).1 = some false
    ∧ (security_scan FetchResult.exn (FetchResult.ok [pairC1]) ScanExn.noExn).passed = 0
    ∧ (security_scan FetchResult.exn (FetchResult.ok [pairC1]) ScanExn.noExn).total = 2
    ∧ (security_scan FetchResult.exn (FetchResult.ok [pairC1]) ScanExn.noExn).total ≠ 1 := by
  refine ⟨by decide, by decide, by decide, by decide, by decide⟩

/-- C1, amended.  A check that errors or times out yields an unknown
result with a "⚠️"-prefixed message and still counts in attempted
(`total`) though not in `passed` (first conjunct: both checks unknown
gives passed = 0, total = 2); only messages starting with "❌" — the
definitive no-Base-pool liquidity failure and internal scan errors —
are excluded from attempted (second conjunct: a definitively failed
no-Base-pool check is NOT counted, total = 1 with the honeypot check
passing).  The scenario honeypot=unknown(timeout),
liquidity=fail(3000 USD, floor 5000) yields passed = 0, attempted = 2,
score = 0, high-risk tier (third conjunct). -/
theorem c1_amended :
    ((security_scan FetchResult.exn FetchResult.exn ScanExn.noExn).passed = 0
      ∧ (security_scan FetchResult.exn FetchResult.exn ScanExn.noExn).total = 2)
    ∧ ((check_liquidity_dex (FetchResult.ok ([] : List Pair))).1 = some false
      ∧ (security_scan (FetchResult.ok hpGood) (FetchResult.ok ([] : List Pair))
          ScanExn.noExn).passed = 1
      ∧ (security_scan (FetchResult.ok hpGood) (FetchResult.ok ([] : List Pair))
          ScanExn.noExn).total = 1)
    ∧ ((security_scan FetchResult.exn (FetchResult.ok [pairC1]) ScanExn.noExn).passed = 0
      ∧ (security_scan FetchResult.exn (FetchResult.ok [pairC1]) ScanExn.noExn).total = 2
      ∧ (security_scan FetchResult.exn (FetchResult.ok [pairC1]) ScanExn.noExn).score = 0
      ∧ (security_scan FetchResult.exn (FetchResult.ok [pairC1]) ScanExn.noExn).level
          = "🔴 HIGH RISK") := by
  have hscore : (security_scan FetchResult.exn (FetchResult.ok [pairC1])
      ScanExn.noExn).score = 0 := by
    rw [security_scan_score_eq]
    have ht : (security_scan FetchResult.exn (FetchResult.ok [pairC1])
        ScanExn.noExn).total = 2 := by decide
    have hp0 : (security_scan FetchResult.exn (FetchResult.ok [pairC1])
        ScanExn.noExn).passed = 0 := by decide
    rw [ht, hp0]
    norm_num
  have hlevel : (security_scan FetchResult.exn (FetchResult.ok [pairC1])
      ScanExn.noExn).level = "🔴 HIGH RISK" := by
    rw [security_scan_level_eq, hscore]
    norm_num [riskLevel]
  exact ⟨⟨by decide, by decide⟩, ⟨by decide, by decide, by decide⟩,
    by decide, by decide, hscore, hlevel⟩

/-! ### Claim C2 -/

/-- C2.  For every contract address (i.e. every outcome of the two
outbound checks and every exception path), the verdict returned by
`security_scan` satisfies: score = passed/attempted × 100 when
attempted > 0 and score = 0 when attempted = 0; score always lies in
[0, 100]; and when attempted > 0, score = 100 exactly when every
attempted check passed (passed = attempted). -/
theorem c2_score_invariant (hp : FetchResult HoneypotData) (liq : FetchResult (List Pair))
    (e : ScanExn) :
    ((security_scan hp liq e).total ≠ 0 →
      (security_scan hp liq e).score =
        ((security_scan hp liq e).passed : ℚ) / ((security_scan hp liq e).total : ℚ) * 100)
    ∧ ((security_scan hp liq e).total = 0 → (security_scan hp liq e).score = 0)
    ∧ 0 ≤ (security_scan hp liq e).score
    ∧ (security_scan hp liq e).score ≤ 100
    ∧ ((security_scan hp liq e).total ≠ 0 →
        ((security_scan hp liq e).score = 100 ↔
          (security_scan hp liq e).passed = (security_scan hp liq e).total)) := by
  have hs := security_scan_score_eq hp liq e
  have hpt := passed_le_total hp liq e
  have ha := score_arith (security_scan hp liq e).passed (security_scan hp liq e).total hpt
  refine ⟨?_, ?_, ?_, ?_, ?_⟩
  · intro h
    rw [hs, if_pos (Nat.pos_of_ne_zero h)]
  · intro h
    rw [hs, h]
    norm_num
  · rw [hs]; exact ha.1
  · rw [hs]; exact ha.2.1
  · intro h
    have hpos := Nat.pos_of_ne_zero h
    have := ha.2.2 hpos
    rw [if_pos hpos] at this
    rw [hs, if_pos hpos]
    exact this

/-- C2, witness: at a benign honeypot response and a liquid Base pool,
attempted = 2 ≠ 0 and the invariant instantiates concretely. -/
theorem c2_score_invariant_witness :
    (security_scan (FetchResult.ok hpGood) (FetchResult.ok [pairGood]) ScanExn.noExn).total ≠ 0
    ∧ (security_scan (FetchResult.ok hpGood) (FetchResult.ok [pairGood]) ScanExn.noExn).score =
        ((security_scan (FetchResult.ok hpGood) (FetchResult.ok [pairGood])
            ScanExn.noExn).passed : ℚ)
          / ((security_scan (FetchResult.ok hpGood) (FetchResult.ok [pairGood])
            ScanExn.noExn).total : ℚ) * 100
    ∧ 0 ≤ (security_scan (FetchResult.ok hpGood) (FetchResult.ok [pairGood]) ScanExn.noExn).score
    ∧ (security_scan (FetchResult.ok hpGood) (FetchResult.ok [pairGood])
        ScanExn.noExn).score ≤ 100 := by
  have h := c2_score_invariant (FetchResult.ok hpGood) (FetchResult.ok [pairGood]) ScanExn.noExn
  have ht : (security_scan (FetchResult.ok hpGood) (FetchResult.ok [pairGood])
      ScanExn.noExn).total ≠ 0 := by decide
  exact ⟨ht, h.1 ht, h.2.2.1, h.2.2.2.1⟩

/-! ### Claim C6 -/

/-- C6, counterexample.  The claim says the fixed check set run by the
Security Evaluator includes a contract-verification check and a
holder-concentration check.  `security_scan` (bot.py lines 127-176)
runs only the honeypot and liquidity checks; no contract-verification
or holder-concentration code exists in bot.py (the `BASESCAN_API_KEY`
read at line 26 is never used). -/
theorem c6_counterexample :
    ¬ (CheckKind.contractVerification ∈ securityScanChecks
       ∧ CheckKind.holderConcentration ∈ securityScanChecks) := by decide

/-- C6, amended.  The evaluator runs a fixed set of exactly two checks
— honeypot/tax and liquidity — each contributing a tri-state result
(`Option Bool`) and a message to the verdict's check list; there is no
contract-verification and no holder-concentration check.  On the
normal path the verdict's check list always has exactly the two
entries. -/
theorem c6_amended :
    securityScanChecks = [CheckKind.honeypot, CheckKind.liquidity]
    ∧ CheckKind.contractVerification ∉ securityScanChecks
    ∧ CheckKind.holderConcentration ∉ securityScanChecks
    ∧ (∀ (hp : FetchResult HoneypotData) (liq : FetchResult (List Pair)),
        (security_scan hp liq ScanExn.noExn).checks.length = 2) := by
  refine ⟨rfl, by decide, by decide, fun hp liq => ?_⟩
  rw [security_scan_noExn]
  rfl

/-! ### Orchestrator lemmas (dedup / rate limit / security gate) -/

lemma getLast_nil (k : String) : getLast [] k = 0 := rfl

lemma getLast_dictSet_self (m : List (String × ℚ)) (k : String) (v : ℚ) :
    getLast (dictSet m k v) k = v := by
  simp [getLast, dictSet, List.find?]

lemma getLast_single_self (k : String) (v : ℚ) : getLast [(k, v)] k = v := by
  simp [getLast, List.find?]

/-- Cooldown branch (bot.py lines 518-519): within 3600 s of the last
alert for this identity, nothing happens. -/
lemma processToken_suppress (st : ScanState) (t : Token) (now score : ℚ) (ok : Bool)
    (h : now - getLast st.lastScanTime (tokenId t) < 3600) :
    processToken st t now score ok = (st, false) := by
  simp only [processToken]
  rw [if_pos h]

/-- Admission branch (bot.py lines 521-537) in its general form. -/
lemma processToken_admitGeneral (st : ScanState) (t : Token) (now score : ℚ) (ok : Bool)
    (h0 : ¬ now - getLast st.lastScanTime (tokenId t) < 3600)
    (h1 : tokenId t ∉ st.scannedTokens ∨ now - getLast st.lastScanTime (tokenId t) > 3600)
    (h2 : 50 ≤ score) :
    processToken st t now score ok =
      ({ scannedTokens := insert (tokenId t) st.scannedTokens,
         lastScanTime := dictSet st.lastScanTime (tokenId t) now,
         alertsSent := st.alertsSent + (if ok then 1 else 0) }, true) := by
  simp only [processToken]
  rw [if_neg h0, if_pos h1, if_pos h2]

/-- Admission branch when the cooldown window has elapsed. -/
lemma processToken_admitted (st : ScanState) (t : Token) (now score : ℚ) (ok : Bool)
    (h1 : now - getLast st.lastScanTime (tokenId t) > 3600) (h2 : 50 ≤ score) :
    processToken st t now score ok =
      ({ scannedTokens := insert (tokenId t) st.scannedTokens,
         lastScanTime := dictSet st.lastScanTime (tokenId t) now,
         alertsSent := st.alertsSent + (if ok then 1 else 0) }, true) :=
  processToken_admitGeneral st t now score ok (by linarith) (Or.inr h1) h2

/-- Security-gate rejection (bot.py lines 528, 538-539): a score below
50 never changes the state. -/
lemma processToken_reject (st : ScanState) (t : Token) (now score : ℚ) (ok : Bool)
    (h : score < 50) : processToken st t now score ok = (st, false) := by
  by_cases hc1 : now - getLast st.lastScanTime (tokenId t) < 3600
  · simp only [processToken]; rw [if_pos hc1]
  · simp only [processToken]; rw [if_neg hc1]
    by_cases hc2 : tokenId t ∉ st.scannedTokens
        ∨ now - getLast st.lastScanTime (tokenId t) > 3600
    · rw [if_pos hc2, if_neg (not_le.mpr h)]
    · rw [if_neg hc2]

/-- Already-seen branch (line 521 false): no state change. -/
lemma processToken_noRetrigger (st : ScanState) (t : Token) (now score : ℚ) (ok : Bool)
    (h0 : ¬ now - getLast st.lastScanTime (tokenId t) < 3600)
    (h1 : ¬ (tokenId t ∉ st.scannedTokens
        ∨ now - getLast st.lastScanTime (tokenId t) > 3600)) :
    processToken st t now score ok = (st, false) := by
  simp only [processToken]
  rw [if_neg h0, if_neg h1]

/-! ### Claim C3 -/

/-- C3.  For a fixed identity, admission happens at most once per
cooldown window: (1) a candidate arriving while
`now − lastNotified < 3600` is suppressed and the state (including
`lastNotified`) is unchanged; (2) once the window has elapsed
(`now − lastNotified > 3600`) a candidate that clears the security gate
is admitted again and its `lastNotified` is set to the new time; (3) a
second candidate for the same identity within 3600 s of that admission
is suppressed with no state change. -/
theorem c3_cooldown_policy (st : ScanState) (t : Token) (now now2 score score2 : ℚ)
    (ok ok2 : Bool) :
    (now - getLast st.lastScanTime (tokenId t) < 3600 →
      processToken st t now score ok = (st, false))
    ∧ (now - getLast st.lastScanTime (tokenId t) > 3600 → 50 ≤ score →
      (processToken st t now score ok).2 = true
      ∧ getLast (processToken st t now score ok).1.lastScanTime (tokenId t) = now)
    ∧ (now - getLast st.lastScanTime (tokenId t) > 3600 → 50 ≤ score →
        now2 - now < 3600 →
      processToken (processToken st t now score ok).1 t now2 score2 ok2
        = ((processToken st t now score ok).1, false)) := by
  refine ⟨fun h => processToken_suppress st t now score ok h, ?_, ?_⟩
  · intro h1 h2
    rw [processToken_admitted st t now score ok h1 h2]
    exact ⟨rfl, getLast_dictSet_self _ _ _⟩
  · intro h1 h2 h3
    have hrec : getLast (processToken st t now score ok).1.lastScanTime (tokenId t) = now := by
      rw [processToken_admitted st t now score ok h1 h2]
      exact getLast_dictSet_self _ _ _
    apply processToken_suppress
    rw [hrec]
    exact h3

/-- C3, witness: the spec's scenario.  `tk1` notified at t = 0; a
second candidate at t = 1800 (30 min, cooldown 3600 s) is suppressed;
from a fresh window, admission at t = 4000 sets lastNotified to 4000,
and a repeat at t = 4100 is suppressed. -/
theorem c3_cooldown_policy_witness :
    processToken st1 tk1 1800 100 true = (st1, false)
    ∧ (processToken st0 tk1 4000 100 true).2 = true
    ∧ getLast (processToken st0 tk1 4000 100 true).1.lastScanTime (tokenId tk1) = 4000
    ∧ processToken (processToken st0 tk1 4000 100 true).1 tk1 4100 100 true
        = ((processToken st0 tk1 4000 100 true).1, false) := by
  have ha := c3_cooldown_policy st1 tk1 1800 0 100 0 true true
  have hb := c3_cooldown_policy st0 tk1 4000 4100 100 100 true true
  have e1 : getLast st1.lastScanTime (tokenId tk1) = 0 := getLast_single_self _ _
  have e0 : getLast st0.lastScanTime (tokenId tk1) = 0 := rfl
  have h1 : (1800:ℚ) - getLast st1.lastScanTime (tokenId tk1) < 3600 := by
    rw [e1]; norm_num
  have h2 : (4000:ℚ) - getLast st0.lastScanTime (tokenId tk1) > 3600 := by
    rw [e0]; norm_num
  have h50 : (50:ℚ) ≤ 100 := by norm_num
  have h3 : (4100:ℚ) - 4000 < 3600 := by norm_num
  exact ⟨ha.1 h1, (hb.2.1 h2 h50).1, (hb.2.1 h2 h50).2, hb.2.2 h2 h50 h3⟩

/-! ### Claim C4 -/

/-- C4, counterexample.  The claim says an AlertRecord is created only
after at least one notification is successfully delivered.  In the
code, `send_opportunity_alert` catches send failures internally
(bot.py lines 451-461) and `scanned_tokens.add` /
`last_scan_time[token_id] = now` run unconditionally afterwards
(lines 535-536): starting from a fresh state, with the security gate
passed but the Telegram send failing (`sendOk = false`, so
`alerts_sent` stays 0 — no notification was ever delivered), the
AlertRecord for the identity is still created. -/
theorem c4_counterexample :
    st0.lastScanTime = []
    ∧ st0.alertsSent = 0
    ∧ (processToken st0 tk1 4000 100 false).2 = true
    ∧ (processToken st0 tk1 4000 100 false).1.alertsSent = 0
    ∧ getLast (processToken st0 tk1 4000 100 false).1.lastScanTime (tokenId tk1) = 4000
    ∧ tokenId tk1 ∈ (processToken st0 tk1 4000 100 false).1.scannedTokens := by
  have e0 : getLast st0.lastScanTime (tokenId tk1) = 0 := rfl
  have h := processToken_admitted st0 tk1 4000 100 false (by rw [e0]; norm_num) (by norm_num)
  rw [h]
  exact ⟨rfl, rfl, rfl, rfl, getLast_dictSet_self _ _ _, Finset.mem_insert_self _ _⟩

/-- C4, amended.  An AlertRecord is created or updated only after the
security gate passes (score ≥ 50) and the notification path is
attempted; delivery success is not required: (1) a candidate rejected
by the gate never changes the state; (2) whenever the record is
written (the candidate was admitted), the gate had passed and
`lastNotified` is set; (3) the dedup/rate-limit state written is
identical whether the send succeeded or failed. -/
theorem c4_amended (st : ScanState) (t : Token) (now score : ℚ) (ok : Bool) :
    (score < 50 → processToken st t now score ok = (st, false))
    ∧ ((processToken st t now score ok).2 = true →
        50 ≤ score
        ∧ getLast (processToken st t now score ok).1.lastScanTime (tokenId t) = now
        ∧ tokenId t ∈ (processToken st t now score ok).1.scannedTokens)
    ∧ (processToken st t now score true).1.scannedTokens
        = (processToken st t now score false).1.scannedTokens
    ∧ (processToken st t now score true).1.lastScanTime
        = (processToken st t now score false).1.lastScanTime
    ∧ (processToken st t now score true).2 = (processToken st t now score false).2 := by
  refine ⟨fun h => processToken_reject st t now score ok h, ?_, ?_⟩
  · intro h
    by_cases hc1 : now - getLast st.lastScanTime (tokenId t) < 3600
    · rw [processToken_suppress st t now score ok hc1] at h
      exact absurd h (by simp)
    · by_cases hc2 : tokenId t ∉ st.scannedTokens
          ∨ now - getLast st.lastScanTime (tokenId t) > 3600
      · by_cases h50 : 50 ≤ score
        · rw [processToken_admitGeneral st t now score ok hc1 hc2 h50]
          exact ⟨h50, getLast_dictSet_self _ _ _, Finset.mem_insert_self _ _⟩
        · rw [processToken_reject st t now score ok (not_le.mp h50)] at h
          exact absurd h (by simp)
      · rw [processToken_noRetrigger st t now score ok hc1 hc2] at h
        exact absurd h (by simp)
  · by_cases hc1 : now - getLast st.lastScanTime (tokenId t) < 3600
    · rw [processToken_suppress st t now score true hc1,
        processToken_suppress st t now score false hc1]
      exact ⟨rfl, rfl, rfl⟩
    · by_cases hc2 : tokenId t ∉ st.scannedTokens
          ∨ now - getLast st.lastScanTime (tokenId t) > 3600
      · by_cases h50 : 50 ≤ score
        · rw [processToken_admitGeneral st t now score true hc1 hc2 h50,
            processToken_admitGeneral st t now score false hc1 hc2 h50]
          exact ⟨rfl, rfl, rfl⟩
        · rw [processToken_reject st t now score true (not_le.mp h50),
            processToken_reject st t now score false (not_le.mp h50)]
          exact ⟨rfl, rfl, rfl⟩
      · rw [processToken_noRetrigger st t now score true hc1 hc2,
          processToken_noRetrigger st t now score false hc1 hc2]
        exact ⟨rfl, rfl, rfl⟩

/-- C4 (amended), witness: a gate-rejected candidate (score 40) leaves
the fresh state untouched; an admitted one (score 100) has the record
written, independently of send success. -/
theorem c4_amended_witness :
    processToken st0 tk1 4000 40 true = (st0, false)
    ∧ ((processToken st0 tk1 4000 100 true).2 = true →
        (50:ℚ) ≤ 100
        ∧ getLast (processToken st0 tk1 4000 100 true).1.lastScanTime (tokenId tk1) = 4000
        ∧ tokenId tk1 ∈ (processToken st0 tk1 4000 100 true).1.scannedTokens)
    ∧ (processToken st0 tk1 4000 100 true).1.lastScanTime
        = (processToken st0 tk1 4000 100 false).1.lastScanTime := by
  have h := c4_amended st0 tk1 4000 40 true
  have h2 := c4_amended st0 tk1 4000 100 true
  exact ⟨h.1 (by norm_num), h2.2.1, h2.2.2.2.1⟩

/-! ### Claim C10 -/

/-- C10.  For every candidate — any kind tag, any contract address —
that is not rate-limited, the security gate applied before admission is
exactly the same threshold: the candidate is admitted for notification
iff its verdict score is ≥ 50.  Uniformity over kinds is expressed by
quantifying over the whole `Token` (its `ttype` field is arbitrary, so
x402-trending and dex-trending candidates get the identical gate). -/
theorem c10_uniform_gate (st : ScanState) (t : Token) (now score : ℚ) (ok : Bool)
    (h : now - getLast st.lastScanTime (tokenId t) > 3600) :
    ((processToken st t now score ok).2 = true ↔ 50 ≤ score) := by
  constructor
  · intro hres
    by_contra h50
    rw [processToken_reject st t now score ok (not_le.mp h50)] at hres
    exact absurd hres (by simp)
  · intro h50
    rw [processToken_admitted st t now score ok h h50]

/-- C10, witness: at score 60 both an x402-kind and a dex-kind
candidate pass the gate from a fresh state. -/
theorem c10_uniform_gate_witness :
    ((processToken st0 tk1 4000 60 true).2 = true ↔ (50:ℚ) ≤ 60)
    ∧ ((processToken st0 tk2 4000 60 true).2 = true ↔ (50:ℚ) ≤ 60)
    ∧ (50:ℚ) ≤ 60 := by
  have e1 : getLast st0.lastScanTime (tokenId tk1) = 0 := rfl
  have e2 : getLast st0.lastScanTime (tokenId tk2) = 0 := rfl
  have h1 := c10_uniform_gate st0 tk1 4000 60 true (by rw [e1]; norm_num)
  have h2 := c10_uniform_gate st0 tk2 4000 60 true (by rw [e2]; norm_num)
  exact ⟨h1, h2, by norm_num⟩

/-! ### Claim C8 -/

/-- C8.  After end-of-cycle cleanup (bot.py lines 541-546): whenever the
dedup working set exceeded capacity C = 1000, its size is reduced to at
most the target T = 500 with T < C; independently, every rate-limit
entry whose timestamp is older than the 24-hour horizon
(`now - 86400`) is removed. -/
theorem c8_cleanup (tokens : List String) (now : ℚ) (m : List (String × ℚ))
    (h : 1000 < tokens.length) :
    (cleanup_scanned tokens).length ≤ 500
    ∧ (500:ℕ) < 1000
    ∧ ∀ kv ∈ m, kv.2 < now - 86400 → kv ∉ cleanup_last_scan now m := by
  refine ⟨?_, by norm_num, ?_⟩
  · unfold cleanup_scanned
    rw [if_pos h, List.length_drop]
    omega
  · intro kv hm hold hmem
    unfold cleanup_last_scan at hmem
    rw [List.mem_filter] at hmem
    have := of_decide_eq_true hmem.2
    linarith

/-- C8, witness: a 1001-entry working set is trimmed to ≤ 500, and a
rate-limit entry far older than 24 h is purged. -/
theorem c8_cleanup_witness :
    (cleanup_scanned (List.replicate 1001 "t")).length ≤ 500
    ∧ ("a", (-100000:ℚ)) ∉ cleanup_last_scan 0 [("a", (-100000:ℚ))] := by
  have h := c8_cleanup (List.replicate 1001 "t") 0 [("a", (-100000:ℚ))]
    (by rw [List.length_replicate]; norm_num)
  exact ⟨h.1, h.2.2 _ (by simp) (by norm_num)⟩

/-! ### Scanner evaluation lemmas -/

/-- A single pair passing the admission filter (with a non-empty
address) survives as the unique returned opportunity. -/
lemma scan_dex_singleton (now : ℚ) (p : Pair)
    (hk : dexKeepP now p) (ha : p.baseTokenAddress ≠ "") :
    scan_dexscreener_trending now (FetchResult.ok [p]) = [mkDexOpp now p] := by
  simp only [scan_dexscreener_trending]
  have hc : (decide (dexKeepP now p) && !(p.baseTokenAddress == "")) = true := by
    rw [decide_eq_true hk]
    simp [ha]
  simp [List.filter, hc, List.insertionSort, List.orderedInsert]

lemma insertionSort_pair_sorted (a b : DexOpp) (h : a.mcap ≤ b.mcap) :
    List.insertionSort (fun x y => x.mcap ≤ y.mcap) [a, b] = [a, b] := by
  simp [List.insertionSort, List.orderedInsert, h]

/-! ### Claim C5 -/

/-- C5, counterexample.  The claim says every pair created within the
last 24 h with liquidity above the floor is admitted as a new-launch
candidate.  `pairNoVol` is created "now", has liquidity 12000 > 10000
and a usable address, yet the filter (bot.py line 339) also demands
`has_volume or is_pumping`, which it fails (volume 0, price change 0):
the scan returns the empty list. -/
theorem c5_counterexample :
    pairNoVol.pairCreatedAt > 100000000 - 86400000
    ∧ pairNoVol.liqUsd > 10000
    ∧ pairNoVol.baseTokenAddress ≠ ""
    ∧ scan_dexscreener_trending 100000000 (FetchResult.ok [pairNoVol]) = [] := by
  refine ⟨by norm_num [pairNoVol], by norm_num [pairNoVol], by simp [pairNoVol], ?_⟩
  simp only [scan_dexscreener_trending]
  have hnk : ¬ dexKeepP 100000000 pairNoVol := by
    intro hk
    rcases hk.2.2 with hv | hpc
    · norm_num [pairNoVol] at hv
    · norm_num [pairNoVol] at hpc
  have hc : (decide (dexKeepP 100000000 pairNoVol)
      && !(pairNoVol.baseTokenAddress == "")) = false := by
    simp [hnk]
  simp [List.filter, hc, List.insertionSort]

/-- C5, amended.  A pair created within the last 24 h with liquidity
above the floor (10000) is admitted — flagged `is_new` — provided it
additionally has 24h volume above 5000 or 24h price change above 30,
and a non-empty base-token address. -/
theorem c5_amended (now : ℚ) (p : Pair)
    (hnew : p.pairCreatedAt > now - 86400000)
    (hliq : p.liqUsd > 10000)
    (hmom : p.volH24 > 5000 ∨ p.priceChangeH24 > 30)
    (haddr : p.baseTokenAddress ≠ "") :
    scan_dexscreener_trending now (FetchResult.ok [p]) = [mkDexOpp now p]
    ∧ (mkDexOpp now p).isNew = true
    ∧ (mkDexOpp now p).contract = p.baseTokenAddress := by
  have hk : dexKeepP now p := ⟨Or.inl hnew, hliq, hmom⟩
  refine ⟨scan_dex_singleton now p hk haddr, ?_, rfl⟩
  simp [mkDexOpp, decide_eq_true hnew]

/-- C5 (amended), witness: the spec's scenario pair (marketCap 40000,
liquidity 12000, volume24h 6000, priceChange24h 5, created now)
qualifies and is flagged as a new launch. -/
theorem c5_amended_witness :
    scan_dexscreener_trending 100000000 (FetchResult.ok [pairC5]) = [mkDexOpp 100000000 pairC5]
    ∧ (mkDexOpp 100000000 pairC5).isNew = true
    ∧ (mkDexOpp 100000000 pairC5).contract = pairC5.baseTokenAddress :=
  c5_amended 100000000 pairC5 (by norm_num [pairC5]) (by norm_num [pairC5])
    (Or.inl (by norm_num [pairC5])) (by simp [pairC5])

/-! ### Claim C7 -/

/-- C7, counterexample.  The claim says surviving candidates are sorted
newest-first, then by ascending market cap.  With two surviving pairs
where the newer one (`pairNewer`, created at 1000) has the larger
market cap, newest-first ordering would return ["0xB", "0xA"]; the code
sorts by ascending market cap only (bot.py line 384) and returns
["0xA", "0xB"]. -/
theorem c7_counterexample :
    pairOld.pairCreatedAt < pairNewer.pairCreatedAt
    ∧ (scan_dexscreener_trending 1000 (FetchResult.ok [pairOld, pairNewer])).map
        (fun o => o.contract) = ["0xA", "0xB"]
    ∧ (["0xA", "0xB"] : List String) ≠ ["0xB", "0xA"] := by
  refine ⟨by norm_num [pairOld, pairNewer], ?_, by decide⟩
  simp only [scan_dexscreener_trending]
  have hkA : dexKeepP 1000 pairOld :=
    ⟨Or.inl (by norm_num [pairOld]), by norm_num [pairOld], Or.inl (by norm_num [pairOld])⟩
  have hkB : dexKeepP 1000 pairNewer :=
    ⟨Or.inl (by norm_num [pairNewer]), by norm_num [pairNewer],
      Or.inl (by norm_num [pairNewer])⟩
  have hcA : (decide (dexKeepP 1000 pairOld) && !(pairOld.baseTokenAddress == "")) = true := by
    rw [decide_eq_true hkA]; simp [pairOld]
  have hcB : (decide (dexKeepP 1000 pairNewer)
      && !(pairNewer.baseTokenAddress == "")) = true := by
    rw [decide_eq_true hkB]; simp [pairNewer]
  rw [show List.take 30 [pairOld, pairNewer] = [pairOld, pairNewer] from rfl]
  simp only [List.filter_cons, hcA, hcB, if_true, List.filter_nil, List.map_cons,
    List.map_nil]
  rw [insertionSort_pair_sorted _ _ (by norm_num [mkDexOpp, pairOld, pairNewer])]
  rfl

/-- C7, amended.  The surviving candidates returned by the DexScreener
source are sorted by ascending market cap only (`list.sort` with the
mcap key, stable, no newest-first component) and capped to 10. -/
theorem c7_amended (now : ℚ) (pairs : List Pair) :
    (scan_dexscreener_trending now (FetchResult.ok pairs)).length ≤ 10
    ∧ List.Sorted (fun a b : DexOpp => a.mcap ≤ b.mcap)
        (scan_dexscreener_trending now (FetchResult.ok pairs)) := by
  haveI h1 : IsTotal DexOpp (fun a b => a.mcap ≤ b.mcap) := ⟨fun a b => le_total a.mcap b.mcap⟩
  haveI h2 : IsTrans DexOpp (fun a b => a.mcap ≤ b.mcap) :=
    ⟨fun a b c hab hbc => le_trans hab hbc⟩
  constructor
  · simp only [scan_dexscreener_trending]
    exact List.length_take_le _ _
  · simp only [scan_dexscreener_trending]
    exact (List.sorted_insertionSort _ _).sublist (List.take_sublist _ _)

/-! ### Claim C9 -/

/-- C9, counterexample.  The claim says every emitted candidate's
address matches the 0x-prefixed 40-hex-digit format.  The DexScreener
path (bot.py lines 340-343) only checks non-emptiness: a pair whose
base-token address is "zzz" is emitted as-is. -/
theorem c9_counterexample :
    (scan_dexscreener_trending 0 (FetchResult.ok [pairBadAddr])).map (fun o => o.contract)
      = ["zzz"]
    ∧ pyStartswith "zzz" "0x" = false := by
  refine ⟨?_, by decide⟩
  have hk : dexKeepP 0 pairBadAddr :=
    ⟨Or.inl (by norm_num [pairBadAddr]), by norm_num [pairBadAddr],
      Or.inl (by norm_num [pairBadAddr])⟩
  rw [scan_dex_singleton 0 pairBadAddr hk (by simp [pairBadAddr])]
  rfl

/-- C9, amended.  Neither source emits a candidate with an empty
contract address; the x402 path additionally requires the address to
start with "0x".  No 40-hex-digit validation is performed (the
DexScreener path checks only non-emptiness, see the counterexample). -/
theorem c9_amended (tokens : List RawX402Token) (infoOf : String → Option DexInfo)
    (now : ℚ) (pairs : List Pair) :
    (∀ o ∈ scan_x402_trending tokens infoOf,
      o.contract ≠ "" ∧ pyStartswith o.contract "0x" = true)
    ∧ (∀ o ∈ scan_dexscreener_trending now (FetchResult.ok pairs), o.contract ≠ "") := by
  constructor
  · intro o ho
    unfold scan_x402_trending at ho
    rw [List.mem_filterMap] at ho
    obtain ⟨tok, -, htok⟩ := ho
    unfold processX402Token at htok
    split at htok
    · exact absurd htok (by simp)
    · rename_i c hec
      split at htok
      · exact absurd htok (by simp)
      · rename_i hskip
        push_neg at hskip
        split at htok
        · exact absurd htok (by simp)
        · rename_i info hinfo
          split at htok
          · have hoc : o.contract = c := by
              have h := Option.some.inj htok
              rw [← h]
            rw [hoc]
            exact hskip
          · exact absurd htok (by simp)
  · intro o ho
    unfold scan_dexscreener_trending at ho
    have ho2 := List.mem_of_mem_take ho
    rw [List.mem_insertionSort, List.mem_map] at ho2
    obtain ⟨p, hp, rfl⟩ := ho2
    rw [List.mem_filter] at hp
    have h2 := hp.2
    simp only [Bool.and_eq_true] at h2
    have : p.baseTokenAddress ≠ "" := by simpa using h2.2
    simpa [mkDexOpp] using this

/-- C9 (amended), witness: a concrete emitted dex candidate has a
non-empty address. -/
theorem c9_amended_witness :
    mkDexOpp 0 pairBadAddr ∈ scan_dexscreener_trending 0 (FetchResult.ok [pairBadAddr])
    ∧ (mkDexOpp 0 pairBadAddr).contract ≠ "" := by
  have h := c9_amended [] (fun _ => none) 0 [pairBadAddr]
  have hk : dexKeepP 0 pairBadAddr :=
    ⟨Or.inl (by norm_num [pairBadAddr]), by norm_num [pairBadAddr],
      Or.inl (by norm_num [pairBadAddr])⟩
  have hmem : mkDexOpp 0 pairBadAddr
      ∈ scan_dexscreener_trending 0 (FetchResult.ok [pairBadAddr]) := by
    rw [scan_dex_singleton 0 pairBadAddr hk (by simp [pairBadAddr])]
    exact List.mem_singleton_self _
  exact ⟨hmem, h.2 _ hmem⟩

end X402Bot
